import Mathlib

/-
Verification of the curl shim in src/native/curl_shim.c against its specification.

The source file contains four C functions, each a pure pass-through to the
underlying libcurl library:

  CURLcode curl_easy_setopt_long_shim(CURL *handle, CURLoption option, long value)
      returns curl_easy_setopt(handle, option, value)
  CURLcode curl_easy_setopt_ptr_shim(CURL *handle, CURLoption option, const void *value)
      returns curl_easy_setopt(handle, option, value)
  CURLcode curl_easy_getinfo_long_shim(CURL *handle, CURLINFO info, long *out)
      returns curl_easy_getinfo(handle, info, out)
  CURLcode curl_easy_getinfo_ptr_shim(CURL *handle, CURLINFO info, void **out)
      returns curl_easy_getinfo(handle, info, out)

We embed the shim shallowly.  The underlying libcurl library is abstract: it is a
structure of functions, one per underlying entry point, each receiving exactly the
arguments the shim passes plus the current memory, and returning a CURLcode and the
memory after whatever writes libcurl performs.  Machine pointers are modelled as
natural-number addresses, with address 0 playing the role of NULL; `long` values are
modelled as integers.  Each shim function additionally reports the list of actions
the shim itself performs (the single invocation of the underlying call; a dereference
or a direct memory write by the shim would be further actions, and none occurs),
which makes frame and safety claims statable.
-/

namespace CurlShim

/-- C memory as seen through the shim's pointer parameters: long-typed cells and
pointer-typed cells, addressed by naturals.  Address 0 models the NULL pointer. -/
structure Mem where
  longs : Nat → Int
  ptrs : Nat → Nat

/-- The abstract underlying libcurl library.  `easy_setopt_long` is
`curl_easy_setopt` applied to a long value, `easy_setopt_ptr` is `curl_easy_setopt`
applied to a pointer value, and the two getinfo fields are `curl_easy_getinfo`
applied to a `long*` respectively `void**` out parameter.  Each call receives the
handle, the option or info identifier, the value or out address, and the memory, and
returns its native CURLcode status together with the memory after any writes the
library performs. -/
structure LibCurl where
  easy_setopt_long : Nat → Nat → Int → Mem → Nat × Mem
  easy_setopt_ptr : Nat → Nat → Nat → Mem → Nat × Mem
  easy_getinfo_long : Nat → Nat → Nat → Mem → Nat × Mem
  easy_getinfo_ptr : Nat → Nat → Nat → Mem → Nat × Mem

/-- libcurl's OK status code. -/
def CURLE_OK : Nat := 0

/-- An action performed by the shim itself.  The four `invoke` constructors record
an invocation of an underlying libcurl entry point with the exact arguments passed;
`deref` would record the shim dereferencing a pointer itself and `write` the shim
writing memory itself (the source performs neither). -/
inductive ShimAction where
  | invoke_setopt_long (handle option : Nat) (value : Int)
  | invoke_setopt_ptr (handle option value : Nat)
  | invoke_getinfo_long (handle info out : Nat)
  | invoke_getinfo_ptr (handle info out : Nat)
  | deref (addr : Nat)
  | write (addr : Nat)
  deriving DecidableEq

/-- Whether an action is a pointer dereference performed by the shim itself. -/
def ShimAction.isDeref : ShimAction → Bool
  | .deref _ => true
  | _ => false

/-- Whether an action is a direct memory write performed by the shim itself. -/
def ShimAction.isWrite : ShimAction → Bool
  | .write _ => true
  | _ => false

/-- Embedding of `curl_easy_setopt_long_shim`: its body is the single statement
`return curl_easy_setopt(handle, option, value);`.  The result is the returned
CURLcode, the memory after the call, and the list of actions the shim performed. -/
def curl_easy_setopt_long_shim (curl : LibCurl) (handle option : Nat) (value : Int)
    (m : Mem) : Nat × Mem × List ShimAction :=
  ((curl.easy_setopt_long handle option value m).1,
   (curl.easy_setopt_long handle option value m).2,
   [ShimAction.invoke_setopt_long handle option value])

/-- Embedding of `curl_easy_setopt_ptr_shim`: its body is the single statement
`return curl_easy_setopt(handle, option, value);` with a pointer-valued third
argument. -/
def curl_easy_setopt_ptr_shim (curl : LibCurl) (handle option value : Nat)
    (m : Mem) : Nat × Mem × List ShimAction :=
  ((curl.easy_setopt_ptr handle option value m).1,
   (curl.easy_setopt_ptr handle option value m).2,
   [ShimAction.invoke_setopt_ptr handle option value])

/-- Embedding of `curl_easy_getinfo_long_shim`: its body is the single statement
`return curl_easy_getinfo(handle, info, out);` with a `long*` out parameter. -/
def curl_easy_getinfo_long_shim (curl : LibCurl) (handle info out : Nat)
    (m : Mem) : Nat × Mem × List ShimAction :=
  ((curl.easy_getinfo_long handle info out m).1,
   (curl.easy_getinfo_long handle info out m).2,
   [ShimAction.invoke_getinfo_long handle info out])

/-- Embedding of `curl_easy_getinfo_ptr_shim`: its body is the single statement
`return curl_easy_getinfo(handle, info, out);` with a `void**` out parameter. -/
def curl_easy_getinfo_ptr_shim (curl : LibCurl) (handle info out : Nat)
    (m : Mem) : Nat × Mem × List ShimAction :=
  ((curl.easy_getinfo_ptr handle info out m).1,
   (curl.easy_getinfo_ptr handle info out m).2,
   [ShimAction.invoke_getinfo_ptr handle info out])

/-- Spec-side definition, following the spec's words: the status the caller of the
setopt-long entry point receives is the underlying transport library's native status
verbatim, with no re-encoding. -/
def spec_status_setopt_long (curl : LibCurl) (handle option : Nat) (value : Int)
    (m : Mem) : Nat :=
  (curl.easy_setopt_long handle option value m).1

/-- Spec-side definition, following the spec's words: the status the caller of the
setopt-ptr entry point receives is the underlying library's native status verbatim. -/
def spec_status_setopt_ptr (curl : LibCurl) (handle option value : Nat)
    (m : Mem) : Nat :=
  (curl.easy_setopt_ptr handle option value m).1

/-- Spec-side definition, following the spec's words: the status the caller of the
getinfo-long entry point receives is the underlying library's native status verbatim. -/
def spec_status_getinfo_long (curl : LibCurl) (handle info out : Nat)
    (m : Mem) : Nat :=
  (curl.easy_getinfo_long handle info out m).1

/-- Spec-side definition, following the spec's words: the status the caller of the
getinfo-ptr entry point receives is the underlying library's native status verbatim. -/
def spec_status_getinfo_ptr (curl : LibCurl) (handle info out : Nat)
    (m : Mem) : Nat :=
  (curl.easy_getinfo_ptr handle info out m).1

/-- The four entry points the source file exposes, one constructor per C function
defined in src/native/curl_shim.c. -/
inductive ShimEntry where
  | setopt_long
  | setopt_ptr
  | getinfo_long
  | getinfo_ptr
  deriving DecidableEq

/-- The underlying libcurl functions the source file calls. -/
inductive LibCurlFn where
  | curl_easy_setopt
  | curl_easy_getinfo
  deriving DecidableEq

/-- Which underlying libcurl function each shim entry point invokes, read off the
body of each function in the source. -/
def ShimEntry.underlying : ShimEntry → LibCurlFn
  | .setopt_long => .curl_easy_setopt
  | .setopt_ptr => .curl_easy_setopt
  | .getinfo_long => .curl_easy_getinfo
  | .getinfo_ptr => .curl_easy_getinfo

/-- The role of an entry point: configuring an option versus querying a result. -/
inductive EntryRole where
  | setopt
  | getinfo
  deriving DecidableEq

/-- The kind of the value or result an entry point carries. -/
inductive EntryValKind where
  | integer
  | pointer
  deriving DecidableEq

/-- The role of each entry point in the source. -/
def ShimEntry.role : ShimEntry → EntryRole
  | .setopt_long => .setopt
  | .setopt_ptr => .setopt
  | .getinfo_long => .getinfo
  | .getinfo_ptr => .getinfo

/-- The value kind of each entry point in the source: `long` versus
`const void*` / `void**`. -/
def ShimEntry.valKind : ShimEntry → EntryValKind
  | .setopt_long => .integer
  | .setopt_ptr => .pointer
  | .getinfo_long => .integer
  | .getinfo_ptr => .pointer

/-- The list of entry points the source file defines, in source order. -/
def shimEntryPoints : List ShimEntry :=
  [ShimEntry.setopt_long, ShimEntry.setopt_ptr,
   ShimEntry.getinfo_long, ShimEntry.getinfo_ptr]

/-- A sample underlying library for concrete evaluation: every call succeeds with
status 0; getinfo-long writes 200 at the out address, getinfo-ptr writes 7. -/
def sampleCurl : LibCurl where
  easy_setopt_long := fun _ _ _ m => (0, m)
  easy_setopt_ptr := fun _ _ _ m => (0, m)
  easy_getinfo_long := fun _ _ out m =>
    (0, { m with longs := fun a => if a = out then 200 else m.longs a })
  easy_getinfo_ptr := fun _ _ out m =>
    (0, { m with ptrs := fun a => if a = out then 7 else m.ptrs a })

/-- A sample underlying library for concrete evaluation: every call fails with
status 2 and performs no write. -/
def failCurl : LibCurl where
  easy_setopt_long := fun _ _ _ m => (2, m)
  easy_setopt_ptr := fun _ _ _ m => (2, m)
  easy_getinfo_long := fun _ _ _ m => (2, m)
  easy_getinfo_ptr := fun _ _ _ m => (2, m)

/-- The all-zero memory, for concrete evaluation. -/
def mem0 : Mem where
  longs := fun _ => 0
  ptrs := fun _ => 0

/-- The underlying library in a partiality-aware model: each call returns `none`
when it does not terminate, and `some` of its status and resulting memory when it
does.  Used to state that each shim terminates whenever its single underlying call
does. -/
structure LibCurlStep where
  easy_setopt_long : Nat → Nat → Int → Mem → Option (Nat × Mem)
  easy_setopt_ptr : Nat → Nat → Nat → Mem → Option (Nat × Mem)
  easy_getinfo_long : Nat → Nat → Nat → Mem → Option (Nat × Mem)
  easy_getinfo_ptr : Nat → Nat → Nat → Mem → Option (Nat × Mem)

/-- `curl_easy_setopt_long_shim` in the partiality-aware model: the body is the
single underlying call, so the shim's outcome is that call's outcome. -/
def setopt_long_shim_step (curl : LibCurlStep) (handle option : Nat) (value : Int)
    (m : Mem) : Option (Nat × Mem) :=
  curl.easy_setopt_long handle option value m

/-- `curl_easy_setopt_ptr_shim` in the partiality-aware model. -/
def setopt_ptr_shim_step (curl : LibCurlStep) (handle option value : Nat)
    (m : Mem) : Option (Nat × Mem) :=
  curl.easy_setopt_ptr handle option value m

/-- `curl_easy_getinfo_long_shim` in the partiality-aware model. -/
def getinfo_long_shim_step (curl : LibCurlStep) (handle info out : Nat)
    (m : Mem) : Option (Nat × Mem) :=
  curl.easy_getinfo_long handle info out m

/-- `curl_easy_getinfo_ptr_shim` in the partiality-aware model. -/
def getinfo_ptr_shim_step (curl : LibCurlStep) (handle info out : Nat)
    (m : Mem) : Option (Nat × Mem) :=
  curl.easy_getinfo_ptr handle info out m

/-- A sample partiality-aware library for concrete evaluation: every call
terminates with status 0 and unchanged memory. -/
def sampleCurlStep : LibCurlStep where
  easy_setopt_long := fun _ _ _ m => some (0, m)
  easy_setopt_ptr := fun _ _ _ m => some (0, m)
  easy_getinfo_long := fun _ _ _ m => some (0, m)
  easy_getinfo_ptr := fun _ _ _ m => some (0, m)

/-!
The OptionStore component.  The repository's source under src holds only the
pass-through shim; the option-setting boundary the spec describes is not part of
it, so it is modelled here from the spec's words.
-/

/-- Modelled from the spec: the enumerated option keys of the OptionStore (the
OptionStore itself is missing from the source, which holds only the shim). -/
inductive OptionKey where
  | URL
  | METHOD
  | HEADERS
  | BODY_SOURCE
  | TIMEOUT_MS
  | CONNECT_TIMEOUT_MS
  | FOLLOW_REDIRECTS
  | MAX_REDIRECTS
  | PROXY
  | TLS_VERIFY
  | AUTH_CREDENTIALS
  | USER_AGENT
  deriving DecidableEq

/-- Modelled from the spec: the kinds a tagged option value can have. -/
inductive OptValueKind where
  | integer
  | text
  | binaryBlob
  | callbackHandle
  deriving DecidableEq

/-- Modelled from the spec: a tagged option value — Integer, Text, BinaryBlob or
Handle-to-callback. -/
inductive OptValue where
  | integer (i : Int)
  | text (s : String)
  | binaryBlob (bytes : List Nat)
  | callbackHandle (h : Nat)
  deriving DecidableEq

/-- The kind tag of a value. -/
def OptValue.kind : OptValue → OptValueKind
  | .integer _ => .integer
  | .text _ => .text
  | .binaryBlob _ => .binaryBlob
  | .callbackHandle _ => .callbackHandle

/-- Modelled from the spec: each key's single declared value kind. -/
def OptionKey.declaredKind : OptionKey → OptValueKind
  | .URL => .text
  | .METHOD => .text
  | .HEADERS => .binaryBlob
  | .BODY_SOURCE => .callbackHandle
  | .TIMEOUT_MS => .integer
  | .CONNECT_TIMEOUT_MS => .integer
  | .FOLLOW_REDIRECTS => .integer
  | .MAX_REDIRECTS => .integer
  | .PROXY => .text
  | .TLS_VERIFY => .integer
  | .AUTH_CREDENTIALS => .text
  | .USER_AGENT => .text

/-- Modelled from the spec: the errors the set operation can fail with. -/
inductive OptError where
  | TypeMismatch
  | InvalidValue
  deriving DecidableEq

/-- Modelled from the spec: the key-specific value constraints — a negative
timeout or redirect bound is invalid, and a malformed (here: empty) URL is
invalid. -/
def validValue : OptionKey → OptValue → Bool
  | .TIMEOUT_MS, .integer i => 0 ≤ i
  | .CONNECT_TIMEOUT_MS, .integer i => 0 ≤ i
  | .MAX_REDIRECTS, .integer i => 0 ≤ i
  | .URL, .text s => s.length ≠ 0
  | _, _ => true

/-- The option store: the configured (key, value) pairs, most recent first. -/
abbrev OptionStore := List (OptionKey × OptValue)

/-- Modelled from the spec: `set` validates the value's kind against the key's
declared kind and fails with TypeMismatch otherwise; it fails with InvalidValue
when the value violates the key-specific constraint; on failure the store is
returned unchanged, on success the pair is recorded. -/
def OptionStore.set (s : OptionStore) (key : OptionKey) (v : OptValue) :
    Option OptError × OptionStore :=
  if v.kind ≠ key.declaredKind then (some OptError.TypeMismatch, s)
  else if validValue key v = false then (some OptError.InvalidValue, s)
  else (none, (key, v) :: s)

/-- Modelled from the spec: `get` returns the value stored for the key, the most
recently set one when several were. -/
def OptionStore.get (s : OptionStore) (key : OptionKey) : Option OptValue :=
  (s.find? fun p => p.1 == key).map fun p => p.2

/-- C1: every shim entry point returns exactly the status code that the
corresponding underlying libcurl call returns for the same arguments, with no
translation or re-encoding: the status each shim returns coincides with the
spec-side verbatim-pass-through status. -/
theorem shim_status_passthrough (curl : LibCurl) (handle option info : Nat)
    (valueL : Int) (valueP out : Nat) (m : Mem) :
    (curl_easy_setopt_long_shim curl handle option valueL m).1 =
      spec_status_setopt_long curl handle option valueL m ∧
    (curl_easy_setopt_ptr_shim curl handle option valueP m).1 =
      spec_status_setopt_ptr curl handle option valueP m ∧
    (curl_easy_getinfo_long_shim curl handle info out m).1 =
      spec_status_getinfo_long curl handle info out m ∧
    (curl_easy_getinfo_ptr_shim curl handle info out m).1 =
      spec_status_getinfo_ptr curl handle info out m := by
  refine ⟨rfl, rfl, rfl, rfl⟩

/-- C3 counterexample: the source does not expose three entry points.  It defines
four shim functions, and they invoke two distinct underlying libcurl functions;
neither count is three. -/
theorem entry_point_count_not_three :
    shimEntryPoints.length ≠ 3 ∧
    ((shimEntryPoints.map ShimEntry.underlying).dedup).length ≠ 3 := by
  decide

/-- C3 (amended): the source exposes four shim entry points, wrapping two underlying
libcurl functions (`curl_easy_setopt` for integer- and pointer-valued options,
`curl_easy_getinfo` for integer- and pointer-valued query results); the four entry
points are exactly the combinations of role (setopt or getinfo) and value kind
(integer or pointer), and every entry point is listed. -/
theorem entry_point_count (e : ShimEntry) :
    shimEntryPoints.length = 4 ∧
    ((shimEntryPoints.map ShimEntry.underlying).dedup).length = 2 ∧
    shimEntryPoints.Nodup ∧
    shimEntryPoints.map (fun x => (x.role, x.valKind)) =
      [(EntryRole.setopt, EntryValKind.integer),
       (EntryRole.setopt, EntryValKind.pointer),
       (EntryRole.getinfo, EntryValKind.integer),
       (EntryRole.getinfo, EntryValKind.pointer)] ∧
    e ∈ shimEntryPoints := by
  refine ⟨by decide, by decide, by decide, by decide, ?_⟩
  cases e <;> decide

/-- C4: each shim function's only effect is the single invocation of the underlying
libcurl function with the shim's own arguments: the returned status is the
underlying call's status, the resulting memory is exactly the memory the underlying
call produces (the shim adds no write before or after), and the shim's action trace
is the one invocation and nothing else.  The shim has no state of its own: its
entire result is determined by the underlying call on its arguments. -/
theorem shim_frame (curl : LibCurl) (handle option info : Nat) (valueL : Int)
    (valueP out : Nat) (m : Mem) :
    curl_easy_setopt_long_shim curl handle option valueL m =
      ((curl.easy_setopt_long handle option valueL m).1,
       (curl.easy_setopt_long handle option valueL m).2,
       [ShimAction.invoke_setopt_long handle option valueL]) ∧
    curl_easy_setopt_ptr_shim curl handle option valueP m =
      ((curl.easy_setopt_ptr handle option valueP m).1,
       (curl.easy_setopt_ptr handle option valueP m).2,
       [ShimAction.invoke_setopt_ptr handle option valueP]) ∧
    curl_easy_getinfo_long_shim curl handle info out m =
      ((curl.easy_getinfo_long handle info out m).1,
       (curl.easy_getinfo_long handle info out m).2,
       [ShimAction.invoke_getinfo_long handle info out]) ∧
    curl_easy_getinfo_ptr_shim curl handle info out m =
      ((curl.easy_getinfo_ptr handle info out m).1,
       (curl.easy_getinfo_ptr handle info out m).2,
       [ShimAction.invoke_getinfo_ptr handle info out]) :=
  ⟨rfl, rfl, rfl, rfl⟩

/-- C5: every error of the four accessors surfaces exclusively through the integer
status return value: the returned status is OK (0) exactly when the underlying
status is 0 and carries the underlying error kind otherwise; the memory the caller
sees is exactly what the underlying call left (the shim writes no error indication
anywhere), and the shim's trace holds no action beyond the single invocation, so
there is no other channel through which an error could be reported. -/
theorem shim_errors_only_status (curl : LibCurl) (handle option info : Nat)
    (valueL : Int) (valueP out : Nat) (m : Mem) :
    ((curl_easy_setopt_long_shim curl handle option valueL m).1 = CURLE_OK ↔
      (curl.easy_setopt_long handle option valueL m).1 = 0) ∧
    (curl_easy_setopt_long_shim curl handle option valueL m).1 =
      (curl.easy_setopt_long handle option valueL m).1 ∧
    (curl_easy_setopt_long_shim curl handle option valueL m).2.1 =
      (curl.easy_setopt_long handle option valueL m).2 ∧
    (curl_easy_setopt_long_shim curl handle option valueL m).2.2 =
      [ShimAction.invoke_setopt_long handle option valueL] ∧
    ((curl_easy_setopt_ptr_shim curl handle option valueP m).1 = CURLE_OK ↔
      (curl.easy_setopt_ptr handle option valueP m).1 = 0) ∧
    (curl_easy_setopt_ptr_shim curl handle option valueP m).2.1 =
      (curl.easy_setopt_ptr handle option valueP m).2 ∧
    ((curl_easy_getinfo_long_shim curl handle info out m).1 = CURLE_OK ↔
      (curl.easy_getinfo_long handle info out m).1 = 0) ∧
    (curl_easy_getinfo_long_shim curl handle info out m).2.1 =
      (curl.easy_getinfo_long handle info out m).2 ∧
    ((curl_easy_getinfo_ptr_shim curl handle info out m).1 = CURLE_OK ↔
      (curl.easy_getinfo_ptr handle info out m).1 = 0) ∧
    (curl_easy_getinfo_ptr_shim curl handle info out m).2.1 =
      (curl.easy_getinfo_ptr handle info out m).2 :=
  ⟨Iff.rfl, rfl, rfl, rfl, Iff.rfl, rfl, Iff.rfl, rfl, Iff.rfl, rfl⟩

/-- C8: no shim function validates or rejects any argument.  For every input —
the quantification ranges over all addresses, with 0 modelling a NULL handle, NULL
value pointer, or NULL out pointer — the shim's trace is exactly the one
unconditional invocation of the underlying call with the shim's own arguments, and
holds no dereference and no write by the shim itself; in particular at all-NULL
arguments the shim still returns exactly the underlying call's status. -/
theorem shim_no_validation (curl : LibCurl) (handle option info : Nat)
    (valueL : Int) (valueP out : Nat) (m : Mem) :
    (curl_easy_setopt_long_shim curl handle option valueL m).2.2 =
      [ShimAction.invoke_setopt_long handle option valueL] ∧
    (((curl_easy_setopt_long_shim curl handle option valueL m).2.2).all
        fun a => !a.isDeref && !a.isWrite) = true ∧
    (curl_easy_setopt_ptr_shim curl handle option valueP m).2.2 =
      [ShimAction.invoke_setopt_ptr handle option valueP] ∧
    (((curl_easy_setopt_ptr_shim curl handle option valueP m).2.2).all
        fun a => !a.isDeref && !a.isWrite) = true ∧
    (curl_easy_getinfo_long_shim curl handle info out m).2.2 =
      [ShimAction.invoke_getinfo_long handle info out] ∧
    (((curl_easy_getinfo_long_shim curl handle info out m).2.2).all
        fun a => !a.isDeref && !a.isWrite) = true ∧
    (curl_easy_getinfo_ptr_shim curl handle info out m).2.2 =
      [ShimAction.invoke_getinfo_ptr handle info out] ∧
    (((curl_easy_getinfo_ptr_shim curl handle info out m).2.2).all
        fun a => !a.isDeref && !a.isWrite) = true ∧
    (curl_easy_setopt_long_shim curl 0 option valueL m).1 =
      (curl.easy_setopt_long 0 option valueL m).1 ∧
    (curl_easy_setopt_ptr_shim curl 0 option 0 m).1 =
      (curl.easy_setopt_ptr 0 option 0 m).1 ∧
    (curl_easy_getinfo_long_shim curl 0 info 0 m).1 =
      (curl.easy_getinfo_long 0 info 0 m).1 ∧
    (curl_easy_getinfo_ptr_shim curl 0 info 0 m).1 =
      (curl.easy_getinfo_ptr 0 info 0 m).1 :=
  ⟨rfl, rfl, rfl, rfl, rfl, rfl, rfl, rfl, rfl, rfl, rfl, rfl⟩

/-- C6: the getinfo entry points deliver the query result through the out pointer
and not through the return value: whatever value the underlying `curl_easy_getinfo`
leaves at the out address is exactly what the caller finds there after the shim
returns, while the return value is exactly the underlying status.  The setopt entry
points take the value as their third argument — the invocation records the value in
value position — and return only the status. -/
theorem shim_out_param_delivery (curl : LibCurl) (handle option info out : Nat)
    (m : Mem) (vL : Int) (vP : Nat)
    (hL : ((curl.easy_getinfo_long handle info out m).2).longs out = vL)
    (hP : ((curl.easy_getinfo_ptr handle info out m).2).ptrs out = vP) :
    ((curl_easy_getinfo_long_shim curl handle info out m).2.1).longs out = vL ∧
    (curl_easy_getinfo_long_shim curl handle info out m).1 =
      (curl.easy_getinfo_long handle info out m).1 ∧
    ((curl_easy_getinfo_ptr_shim curl handle info out m).2.1).ptrs out = vP ∧
    (curl_easy_getinfo_ptr_shim curl handle info out m).1 =
      (curl.easy_getinfo_ptr handle info out m).1 ∧
    (curl_easy_setopt_long_shim curl handle option vL m).2.2 =
      [ShimAction.invoke_setopt_long handle option vL] ∧
    (curl_easy_setopt_long_shim curl handle option vL m).1 =
      (curl.easy_setopt_long handle option vL m).1 ∧
    (curl_easy_setopt_ptr_shim curl handle option vP m).2.2 =
      [ShimAction.invoke_setopt_ptr handle option vP] ∧
    (curl_easy_setopt_ptr_shim curl handle option vP m).1 =
      (curl.easy_setopt_ptr handle option vP m).1 :=
  ⟨hL, rfl, hP, rfl, rfl, rfl, rfl, rfl⟩

/-- C6 witness: concrete evaluation with a sample library that writes 200 through
the `long*` out pointer and 7 through the `void**` out pointer. -/
theorem shim_out_param_delivery_witness :
    ((sampleCurl.easy_getinfo_long 1 2 5 mem0).2).longs 5 = (200 : Int) ∧
    ((sampleCurl.easy_getinfo_ptr 1 2 5 mem0).2).ptrs 5 = 7 ∧
    ((curl_easy_getinfo_long_shim sampleCurl 1 2 5 mem0).2.1).longs 5 = (200 : Int) :=
  ⟨by simp [sampleCurl], by simp [sampleCurl],
   (shim_out_param_delivery sampleCurl 1 3 2 5 mem0 200 7
      (by simp [sampleCurl]) (by simp [sampleCurl])).1⟩

/-- C9: the getinfo shims never write through the out pointer themselves: the
resulting memory is the underlying call's memory, so when the underlying call
leaves the memory unchanged, the out cell is left exactly as the caller passed it;
the shim's own trace holds no write action. -/
theorem getinfo_no_shim_write (curl : LibCurl) (handle info out : Nat) (m : Mem)
    (hL : (curl.easy_getinfo_long handle info out m).2 = m)
    (hP : (curl.easy_getinfo_ptr handle info out m).2 = m) :
    (curl_easy_getinfo_long_shim curl handle info out m).2.1 = m ∧
    ((curl_easy_getinfo_long_shim curl handle info out m).2.1).longs out =
      m.longs out ∧
    (curl_easy_getinfo_ptr_shim curl handle info out m).2.1 = m ∧
    ((curl_easy_getinfo_ptr_shim curl handle info out m).2.1).ptrs out =
      m.ptrs out ∧
    (((curl_easy_getinfo_long_shim curl handle info out m).2.2).all
        fun a => !a.isWrite) = true ∧
    (((curl_easy_getinfo_ptr_shim curl handle info out m).2.2).all
        fun a => !a.isWrite) = true :=
  ⟨hL, congrArg (fun mm => Mem.longs mm out) hL, hP,
   congrArg (fun mm => Mem.ptrs mm out) hP, rfl, rfl⟩

/-- C9 witness: concrete evaluation with a sample library that fails with status 2
and writes nothing; the out cell keeps the caller's value. -/
theorem getinfo_no_shim_write_witness :
    (failCurl.easy_getinfo_long 1 2 5 mem0).2 = mem0 ∧
    (failCurl.easy_getinfo_ptr 1 2 5 mem0).2 = mem0 ∧
    (curl_easy_getinfo_long_shim failCurl 1 2 5 mem0).2.1 = mem0 :=
  ⟨rfl, rfl, (getinfo_no_shim_write failCurl 1 2 5 mem0 rfl rfl).1⟩

/-- C10: each shim function terminates whenever its single underlying libcurl call
terminates — in the partiality-aware model, the shim's outcome is defined exactly
when the underlying call's outcome is — and each body is one call: the shim's
action trace has length one (no loop, no recursion, no other control flow). -/
theorem shim_terminates (curl : LibCurlStep) (curlT : LibCurl)
    (handle option info : Nat) (valueL : Int) (valueP out : Nat) (m : Mem)
    (h1 : (curl.easy_setopt_long handle option valueL m).isSome = true)
    (h2 : (curl.easy_setopt_ptr handle option valueP m).isSome = true)
    (h3 : (curl.easy_getinfo_long handle info out m).isSome = true)
    (h4 : (curl.easy_getinfo_ptr handle info out m).isSome = true) :
    (setopt_long_shim_step curl handle option valueL m).isSome = true ∧
    (setopt_ptr_shim_step curl handle option valueP m).isSome = true ∧
    (getinfo_long_shim_step curl handle info out m).isSome = true ∧
    (getinfo_ptr_shim_step curl handle info out m).isSome = true ∧
    ((curl_easy_setopt_long_shim curlT handle option valueL m).2.2).length = 1 ∧
    ((curl_easy_setopt_ptr_shim curlT handle option valueP m).2.2).length = 1 ∧
    ((curl_easy_getinfo_long_shim curlT handle info out m).2.2).length = 1 ∧
    ((curl_easy_getinfo_ptr_shim curlT handle info out m).2.2).length = 1 :=
  ⟨h1, h2, h3, h4, rfl, rfl, rfl, rfl⟩

/-- C10 witness: concrete evaluation with a sample library whose calls all
terminate. -/
theorem shim_terminates_witness :
    (sampleCurlStep.easy_setopt_long 1 2 3 mem0).isSome = true ∧
    (setopt_long_shim_step sampleCurlStep 1 2 3 mem0).isSome = true :=
  ⟨rfl,
   (shim_terminates sampleCurlStep sampleCurl 1 2 2 3 0 5 mem0
      rfl rfl rfl rfl).1⟩

/-- C2: setting a value whose kind does not match the key's declared kind always
fails with TypeMismatch and returns the stored options unchanged. -/
theorem set_wrong_kind_type_mismatch (s : OptionStore) (key : OptionKey)
    (v : OptValue) (h : v.kind ≠ key.declaredKind) :
    s.set key v = (some OptError.TypeMismatch, s) := by
  unfold OptionStore.set
  rw [if_pos h]

/-- C2 witness: setting the text-kinded URL key with an integer value on the empty
store fails with TypeMismatch and leaves the store empty. -/
theorem set_wrong_kind_type_mismatch_witness :
    (OptValue.integer 5).kind ≠ OptionKey.declaredKind OptionKey.URL ∧
    OptionStore.set [] OptionKey.URL (OptValue.integer 5) =
      (some OptError.TypeMismatch, []) :=
  ⟨by decide,
   set_wrong_kind_type_mismatch [] OptionKey.URL (OptValue.integer 5) (by decide)⟩

/-- C7 counterexample: the round-trip fails for a kind-correct value that violates
the key's constraint.  The integer value -1 has the TIMEOUT_MS key's declared kind,
yet setting it fails with InvalidValue, and a subsequent get does not return it. -/
theorem set_get_roundtrip_counterexample :
    (OptValue.integer (-1)).kind = OptionKey.declaredKind OptionKey.TIMEOUT_MS ∧
    (OptionStore.set [] OptionKey.TIMEOUT_MS (OptValue.integer (-1))).1 =
      some OptError.InvalidValue ∧
    ¬ (OptionStore.get
        (OptionStore.set [] OptionKey.TIMEOUT_MS (OptValue.integer (-1))).2
        OptionKey.TIMEOUT_MS = some (OptValue.integer (-1))) := by
  decide

/-- C7 (amended): for every key and every value of that key's declared kind that
also satisfies the key's value constraint, set succeeds and a subsequent get
returns the same value. -/
theorem set_get_roundtrip (s : OptionStore) (key : OptionKey) (v : OptValue)
    (hk : v.kind = key.declaredKind) (hv : validValue key v = true) :
    (s.set key v).1 = none ∧
    OptionStore.get (s.set key v).2 key = some v := by
  unfold OptionStore.set
  rw [if_neg (by simp [hk]), if_neg (by simp [hv])]
  exact ⟨rfl, by simp [OptionStore.get, List.find?]⟩

/-- C7 witness: setting the METHOD key to a text value on the empty store and
reading it back returns the value. -/
theorem set_get_roundtrip_witness :
    (OptValue.text "GET").kind = OptionKey.declaredKind OptionKey.METHOD ∧
    validValue OptionKey.METHOD (OptValue.text "GET") = true ∧
    OptionStore.get
      (OptionStore.set [] OptionKey.METHOD (OptValue.text "GET")).2
      OptionKey.METHOD = some (OptValue.text "GET") :=
  ⟨rfl, rfl,
   (set_get_roundtrip [] OptionKey.METHOD (OptValue.text "GET") rfl rfl).2⟩

end CurlShim
